import Mathlib

/-
Verification of the Crack-Time password analysis core.

Shallow embedding of `calculator_module.py` (class PasswordCalculator) and
`suggestions_module.py` (class PasswordSuggestions).  Python strings are
modelled as Lean `String`; `str.lower` is modelled as per-character ASCII
lowering (all configuration data is ASCII); Python floats are modelled as
exact rationals (`ℚ`) for the crack-time arithmetic and as real numbers
(`ℝ`) for the entropy computation, which uses `math.log2`; Python's
arbitrary-precision nonnegative integers are `ℕ`.  A Python function that
can raise on some input is modelled with an `Option` result.
-/

namespace CrackTime

/-- The 32 special characters of the regex class
`[!@#$%^&*()_+\-=\[\]{};':"\\|,.<>?/`+backtick+`~]` used by
`_calculate_charset_size` and `_analyze_character_types`. -/
def symbol_chars : List Char :=
  String.data "!@#$%^&*()_+-=[]\x7b\x7d;\x27:\"\\|,.<>?/\x60~"

/-- Model of Python `str.lower` (ASCII lowering, per character). -/
def lowerStr (s : String) : String :=
  ⟨s.data.map Char.toLower⟩

/-- Model of Python `needle in haystack` on lists of characters:
`pat` occurs contiguously in the second list. -/
def isSubAux (pat : List Char) : List Char → Bool
  | [] => pat.isEmpty
  | c :: rest => pat.isPrefixOf (c :: rest) || isSubAux pat rest

/-- Model of Python `pat in s` (contiguous substring test). -/
def strContains (s pat : String) : Bool :=
  isSubAux pat.data s.data

/-- Any of the given fragments occurs in `s`. -/
def containsAny (s : String) (pats : List String) : Bool :=
  pats.any (fun q => strContains s q)

/-- Model of Python single-character `str.replace`. -/
def replace1 (s : String) (a b : Char) : String :=
  ⟨s.data.map (fun c => if c = a then b else c)⟩

/-- Model of `re.search(r'[a-z]', p)` (ASCII lowercase present). -/
def hasLower (p : String) : Bool := p.data.any Char.isLower

/-- Model of `re.search(r'[A-Z]', p)` (ASCII uppercase present). -/
def hasUpper (p : String) : Bool := p.data.any Char.isUpper

/-- Model of `re.search(r'[0-9]', p)` (ASCII digit present). -/
def hasDigit (p : String) : Bool := p.data.any Char.isDigit

/-- Model of `re.search(r'[!@#$%^&*()_+\-=...]', p)` (special character present). -/
def hasSymbol (p : String) : Bool := p.data.any (fun c => symbol_chars.contains c)

/-- Model of `' ' in password`. -/
def hasSpace (p : String) : Bool := p.data.contains ' '

/-- Model of `len(set(password))`: number of distinct characters. -/
def distinctCount (p : String) : ℕ := p.data.dedup.length

/-- The `weak_passwords` set from `PasswordCalculator.__init__`. -/
def weak_passwords : List String :=
  ["password", "password123", "123456", "qwerty", "admin", "letmein",
   "welcome", "monkey", "1234567890", "abc123", "password1", "admin123",
   "root", "toor", "pass", "12345678", "qwerty123", "Password1"]

/-- Alternatives of the sequential-numbers regex `(012|123|...|789)`. -/
def seq_number_runs : List String :=
  ["012", "123", "234", "345", "456", "567", "678", "789"]

/-- Alternatives of the sequential-letters regex `(abc|bcd|...|xyz)`. -/
def seq_letter_runs : List String :=
  ["abc", "bcd", "cde", "def", "efg", "fgh", "ghi", "hij", "ijk", "jkl",
   "klm", "lmn", "mno", "nop", "opq", "pqr", "qrs", "rst", "stu", "tuv",
   "uvw", "vwx", "wxy", "xyz"]

/-- Alternatives of the keyboard-pattern regex `(qwerty|asdf|zxcv)`. -/
def keyboard_runs : List String := ["qwerty", "asdf", "zxcv"]

/-- Alternatives of the common-words regex `(password|admin|login|user|guest)`. -/
def common_word_runs : List String := ["password", "admin", "login", "user", "guest"]

/-- Model of `re.search(r'(.)\1{2,}', s)`: some character other than a
newline (regex `.` does not match newline) occurs at least three times in
a row. -/
def hasTripleRepeat : List Char → Bool
  | a :: b :: c :: rest =>
      (a == b && b == c && a != '\n') || hasTripleRepeat (b :: c :: rest)
  | _ => false

/-- Model of `re.search(r'(19|20)\d{2}', p)`: a four-character window
starting with "19" or "20" followed by two ASCII digits. -/
def hasDateRun : List Char → Bool
  | a :: b :: c :: d :: rest =>
      (((a == '1' && b == '9') || (a == '2' && b == '0')) && c.isDigit && d.isDigit)
        || hasDateRun (b :: c :: d :: rest)
  | _ => false

/-- The leetspeak collapse of `_check_patterns`: lowercase the password and
apply the substitutions `@ -> a, 3 -> e, 1 -> i, 0 -> o, 5 -> s, 7 -> t` in
dictionary order. -/
def leet_simplified (p : String) : String :=
  replace1 (replace1 (replace1 (replace1 (replace1 (replace1 (lowerStr p)
    '@' 'a') '3' 'e') '1' 'i') '0' 'o') '5' 's') '7' 't'

/-- Embedding of `PasswordCalculator._check_patterns`.  The five regex
rules are tried on the lowercased password in order, each appending its
issue tag when it matches (the classification of each regex to a tag is
determined statically by the rule text); then the date-pattern check on the
original password and the leetspeak-substitution check append their tags. -/
def check_patterns (p : String) : List String :=
  let low := lowerStr p
  (if hasTripleRepeat low.data then ["repeated_characters"] else []) ++
  (if containsAny low seq_number_runs then ["sequential_characters"] else []) ++
  (if containsAny low seq_letter_runs then ["sequential_characters"] else []) ++
  (if containsAny low keyboard_runs then ["keyboard_pattern"] else []) ++
  (if containsAny low common_word_runs then ["common_words"] else []) ++
  (if hasDateRun p.data then ["date_pattern"] else []) ++
  (if weak_passwords.contains (leet_simplified p) then ["simple_substitution"] else [])

/-- Embedding of `PasswordCalculator._calculate_charset_size`: accumulate
the alphabet sizes of the character classes present, falling back to the
number of distinct characters when no class is present. -/
def calculate_charset_size (p : String) : ℕ :=
  let cs1 : ℕ := if hasLower p then 0 + 26 else 0
  let cs2 : ℕ := if hasUpper p then cs1 + 26 else cs1
  let cs3 : ℕ := if hasDigit p then cs2 + 10 else cs2
  let cs4 : ℕ := if hasSymbol p then cs3 + 32 else cs3
  if cs4 = 0 then distinctCount p else cs4

/-- The five character-type flags returned by
`PasswordCalculator._analyze_character_types` (dictionary order:
lowercase, uppercase, digits, symbols, spaces). -/
structure CharacterTypes where
  has_lowercase : Bool
  has_uppercase : Bool
  has_digits : Bool
  has_symbols : Bool
  has_spaces : Bool
deriving DecidableEq

/-- Embedding of `PasswordCalculator._analyze_character_types`. -/
def analyze_character_types (p : String) : CharacterTypes :=
  { has_lowercase := hasLower p
    has_uppercase := hasUpper p
    has_digits := hasDigit p
    has_symbols := hasSymbol p
    has_spaces := hasSpace p }

/-- Model of Python `sum(char_types.values())` over the five flags. -/
def type_count (t : CharacterTypes) : ℕ :=
  t.has_lowercase.toNat + t.has_uppercase.toNat + t.has_digits.toNat +
    t.has_symbols.toNat + t.has_spaces.toNat

/-- Embedding of `PasswordCalculator._calculate_entropy`: entropy in bits
with the pattern and common-password penalty factors applied
multiplicatively (`math.log2` is modelled by `Real.logb 2`). -/
noncomputable def calculate_entropy (p : String) : ℝ :=
  let charset_size := calculate_charset_size p
  if charset_size ≤ 1 then 0
  else
    let entropy : ℝ := (p.length : ℝ) * Real.logb 2 (charset_size : ℝ)
    let penalty_factor : ℝ := 1
    let penalty_factor : ℝ :=
      if check_patterns p ≠ [] then penalty_factor * 0.7 else penalty_factor
    let penalty_factor : ℝ :=
      if weak_passwords.contains (lowerStr p) then penalty_factor * 0.3 else penalty_factor
    entropy * penalty_factor

/-- The `attack_speeds` table from `PasswordCalculator.__init__`
(attempts per second, dictionary order). -/
def attack_speeds : List (String × ℕ) :=
  [("slow", 1000), ("medium", 1000000), ("fast", 1000000000),
   ("quantum", 1000000000000)]

/-- Python `total_combinations // 2` (floor division on nonnegative ints). -/
def avg_attempts (total_combinations : ℕ) : ℕ := total_combinations / 2

/-- The seconds value `avg_attempts / speed_value` handed to `_format_time`
for one attack profile (exact rational model of the float division). -/
def crack_seconds (total_combinations rate : ℕ) : ℚ :=
  (avg_attempts total_combinations : ℚ) / (rate : ℚ)

/-- Rounding to the nearest integer with ties to even, the rounding used by
Python `format(x, '.1f')` after scaling by ten. -/
def round_half_even (q : ℚ) : ℤ :=
  let f : ℤ := ⌊q⌋
  let r : ℚ := q - (f : ℚ)
  if r < 1 / 2 then f
  else if 1 / 2 < r then f + 1
  else if f % 2 = 0 then f else f + 1

/-- Model of the Python f-string `f"{q:.1f}"` for a nonnegative value:
one digit after the decimal point. -/
def fmt1 (q : ℚ) : String :=
  let n : ℤ := round_half_even (q * 10)
  toString (n / 10) ++ "." ++ toString (n % 10)

/-- Embedding of `PasswordCalculator._format_time`. -/
def format_time (seconds : ℚ) : String :=
  if seconds < 1 then "< 1 second"
  else if seconds < 60 then fmt1 seconds ++ " seconds"
  else if seconds < 3600 then fmt1 (seconds / 60) ++ " minutes"
  else if seconds < 86400 then fmt1 (seconds / 3600) ++ " hours"
  else if seconds < 31536000 then
    let days := seconds / 86400
    if days < 7 then fmt1 days ++ " days"
    else if days < 365 then fmt1 (days / 7) ++ " weeks"
    else fmt1 (days / (3044 / 100 : ℚ)) ++ " months"
  else
    let years := seconds / 31536000
    if years < 1000 then fmt1 years ++ " years"
    else if years < 1000000 then fmt1 (years / 1000) ++ " thousand years"
    else if years < 1000000000 then fmt1 (years / 1000000) ++ " million years"
    else if years < 1000000000000 then fmt1 (years / 1000000000) ++ " billion years"
    else fmt1 (years / 1000000000000) ++ " trillion years"

/-- Embedding of `PasswordCalculator._calculate_crack_times`: one formatted
duration per attack profile, keyed by the profile name. -/
def calculate_crack_times (total_combinations : ℕ) : List (String × String) :=
  attack_speeds.map (fun sv => (sv.1, format_time (crack_seconds total_combinations sv.2)))

/-- The length sub-score of `_calculate_strength_score` (up to 30 points). -/
def length_sub_score (length : ℕ) : ℤ :=
  if 16 ≤ length then 30
  else if 12 ≤ length then 25
  else if 8 ≤ length then 15
  else if 6 ≤ length then 10
  else 5

/-- The character-diversity sub-score of `_calculate_strength_score`
(up to 25 points), computed from `sum(char_types.values())`. -/
def diversity_sub_score (t : CharacterTypes) : ℤ :=
  if 4 ≤ type_count t then 25
  else if type_count t = 3 then 20
  else if type_count t = 2 then 10
  else 5

/-- The entropy sub-score of `_calculate_strength_score` (up to 25 points). -/
noncomputable def entropy_sub_score (entropy : ℝ) : ℤ :=
  if 60 ≤ entropy then 25
  else if 50 ≤ entropy then 20
  else if 40 ≤ entropy then 15
  else if 30 ≤ entropy then 10
  else 5

/-- The pattern and common-password penalty sub-score of
`_calculate_strength_score` (starts at 20, floored at 0). -/
def penalty_sub_score (is_common : Bool) (issues : List String) : ℤ :=
  let penalty_score : ℤ := 20
  let penalty_score : ℤ := if is_common then penalty_score - 15 else penalty_score
  let penalty_score : ℤ :=
    if issues ≠ [] then penalty_score - min ((issues.length : ℤ) * 3) 10 else penalty_score
  max penalty_score 0

/-- The analysis record assembled by `PasswordCalculator.analyze_password`. -/
structure AnalysisRecord where
  length : ℕ
  charset_size : ℕ
  entropy : ℝ
  total_combinations : ℕ
  crack_times : List (String × String)
  strength_score : ℤ
  character_types : CharacterTypes
  pattern_issues : List String
  is_common_password : Bool

/-- Embedding of `PasswordCalculator._calculate_strength_score`: sum of the
four sub-scores, clamped to the interval from 0 to 100 by
`max(0, min(100, score))`. -/
noncomputable def calculate_strength_score (password : String) (analysis : AnalysisRecord) : ℤ :=
  let score :=
    length_sub_score analysis.length +
    diversity_sub_score analysis.character_types +
    entropy_sub_score analysis.entropy +
    penalty_sub_score analysis.is_common_password analysis.pattern_issues
  max 0 (min 100 score)

/-- Embedding of `PasswordCalculator.analyze_password`: build the record,
then fill in `total_combinations`, `crack_times` and `strength_score`
exactly as the source mutates the dictionary. -/
noncomputable def analyze_password (p : String) : AnalysisRecord :=
  let base : AnalysisRecord :=
    { length := p.length
      charset_size := calculate_charset_size p
      entropy := calculate_entropy p
      total_combinations := 0
      crack_times := []
      strength_score := 0
      character_types := analyze_character_types p
      pattern_issues := check_patterns p
      is_common_password := weak_passwords.contains (lowerStr p) }
  let withComb := { base with total_combinations := base.charset_size ^ base.length }
  let withTimes := { withComb with crack_times := calculate_crack_times withComb.total_combinations }
  { withTimes with strength_score := calculate_strength_score p withTimes }

/-- Embedding of `PasswordSuggestions.get_warnings`. -/
def get_warnings (password : String) (analysis : AnalysisRecord) : List String :=
  let w1 := if analysis.length < 8 then
      ["Password is dangerously short - minimum 8 characters required"] else []
  let w2 := if analysis.is_common_password then
      ["This password appears in common password lists - change immediately!"] else []
  let w3 := if analysis.strength_score < 25 then
      ["CRITICAL: This password provides virtually no security"]
    else if analysis.strength_score < 50 then
      ["This password is easily crackable by modern tools"] else []
  let used_types := type_count analysis.character_types
  let w4 := if used_types < 2 then
      ["Password uses only one type of character - extremely vulnerable"]
    else if used_types < 3 then
      ["Limited character variety makes this password weaker"] else []
  let w5 := if analysis.pattern_issues ≠ [] then
      (if analysis.pattern_issues.contains "repeated_characters" then
        ["Repeated characters make passwords predictable"] else []) ++
      (if analysis.pattern_issues.contains "sequential_characters" then
        ["Sequential patterns (123, abc) are easily guessed"] else []) ++
      (if analysis.pattern_issues.contains "keyboard_pattern" then
        ["Keyboard patterns are among the first things hackers try"] else []) ++
      (if analysis.pattern_issues.contains "simple_substitution" then
        ["Simple substitutions (@ for a) don\x27t significantly improve security"] else [])
    else []
  let w6 := match analysis.crack_times.lookup "medium" with
    | some medium_time =>
        if strContains (lowerStr medium_time) "second" || strContains (lowerStr medium_time) "minute"
        then ["A dedicated attacker could crack this in " ++ lowerStr medium_time] else []
    | none => []
  w1 ++ w2 ++ w3 ++ w4 ++ w5 ++ w6

/-- Embedding of `PasswordSuggestions.get_suggestions`. -/
noncomputable def get_suggestions (password : String) (analysis : AnalysisRecord) : List String :=
  let s1 := if analysis.length < 12 then
      ["Increase length to at least 12 characters (currently " ++ toString analysis.length ++ ")"]
    else if analysis.length < 16 then
      ["Consider extending to 16+ characters for maximum security"] else []
  let t := analysis.character_types
  let s2 :=
    (if t.has_uppercase = false then ["Add uppercase letters (A, B, C, etc.)"] else []) ++
    (if t.has_lowercase = false then ["Add lowercase letters (a, b, c, etc.)"] else []) ++
    (if t.has_digits = false then ["Include numbers (0-9)"] else []) ++
    (if t.has_symbols = false then ["Add special characters (!@#$%^&* etc.)"] else [])
  let s3 := if analysis.entropy < 50 then
      ["Increase randomness - avoid predictable patterns"] else []
  let s4 := if analysis.pattern_issues ≠ [] then
      ["Remove predictable patterns and sequences"] else []
  let s5 := if analysis.strength_score < 75 then
      ["Consider using a passphrase (multiple words combined)",
       "Use a password manager to generate strong passwords"] else []
  s1 ++ s2 ++ s3 ++ s4 ++ s5 ++
    ["Make this password unique - don\x27t reuse it elsewhere",
     "Enable two-factor authentication for added security"]

/-- Embedding of `PasswordSuggestions.analyze_common_mistakes`.  The
character-diversity check divides `len(set(password))` by `len(password)`,
which raises `ZeroDivisionError` on the empty string; the raise is modelled
by an `Option` result. -/
def analyze_common_mistakes (password : String) : Option (List String) :=
  let m1 := if (["password", "admin", "user", "login"].any
      (fun w => w.data.isPrefixOf (lowerStr password).data)) then
      ["Starts with a common word - very predictable"] else []
  let m2 := if (["123", "!", "."].any
      (fun w => w.data.isSuffixOf password.data)) then
      ["Predictable ending pattern"] else []
  if password.length = 0 then none
  else
    let m3 := if (distinctCount password : ℚ) / (password.length : ℚ) < 7 / 10 then
        ["Too many repeated characters"] else []
    let m4 := if (["qwerty123", "abc123", "123abc", "password1"] : List String).contains
        (lowerStr password) then
        ["Extremely common weak password pattern"] else []
    let simple_transforms :=
      [replace1 password 'a' '@', replace1 password 'e' '3',
       replace1 password 'i' '1', replace1 password 'o' '0']
    let m5 := if simple_transforms.any
        (fun tr => (["p@ssword", "p4ssw0rd", "adm1n"] : List String).contains (lowerStr tr)) then
        ["Simple character substitution is not secure"] else []
    let m6 := if (["2020", "2021", "2022", "2023", "2024", "2025"] : List String).any
        (fun y => strContains password y) then
        ["Avoid using current or recent years"] else []
    some (m1 ++ m2 ++ m3 ++ m4 ++ m5 ++ m6)

/-- Diversity sub-score as the specification describes it: counting only
the four ASCII character-type flags, not the space flag.  This definition
follows the spec text and is compared against the source-derived scoring. -/
def spec_diversity_sub_score (t : CharacterTypes) : ℤ :=
  let c := t.has_lowercase.toNat + t.has_uppercase.toNat + t.has_digits.toNat +
    t.has_symbols.toNat
  if 4 ≤ c then 25 else if c = 3 then 20 else if c = 2 then 10 else 5

/-- Diversity sub-score as the code computes it, written out independently:
counting all five flags, the space flag included. -/
def amended_diversity_sub_score (t : CharacterTypes) : ℤ :=
  let c := t.has_lowercase.toNat + t.has_uppercase.toNat + t.has_digits.toNat +
    t.has_symbols.toNat + t.has_spaces.toNat
  if 4 ≤ c then 25 else if c = 3 then 20 else if c = 2 then 10 else 5

/-! Projections of the analysis record, read off the staged construction in
`analyze_password`. -/

theorem analyze_length (p : String) : (analyze_password p).length = p.length := rfl

theorem analyze_charset (p : String) :
    (analyze_password p).charset_size = calculate_charset_size p := rfl

theorem analyze_entropy (p : String) :
    (analyze_password p).entropy = calculate_entropy p := rfl

theorem analyze_total (p : String) :
    (analyze_password p).total_combinations = calculate_charset_size p ^ p.length := rfl

theorem analyze_crack (p : String) :
    (analyze_password p).crack_times =
      calculate_crack_times (calculate_charset_size p ^ p.length) := rfl

theorem analyze_types (p : String) :
    (analyze_password p).character_types = analyze_character_types p := rfl

theorem analyze_issues (p : String) :
    (analyze_password p).pattern_issues = check_patterns p := rfl

theorem analyze_is_common (p : String) :
    (analyze_password p).is_common_password = weak_passwords.contains (lowerStr p) := rfl

theorem analyze_strength (p : String) :
    (analyze_password p).strength_score =
      max 0 (min 100 (length_sub_score p.length +
        diversity_sub_score (analyze_character_types p) +
        entropy_sub_score (calculate_entropy p) +
        penalty_sub_score (weak_passwords.contains (lowerStr p)) (check_patterns p))) := rfl

/-! Numeric bounds on `Real.logb 2 36`, used to place the entropy of the
concrete passwords below into the right scoring bucket. -/

theorem logb_two_36_lower : (5 : ℝ) ≤ Real.logb 2 36 := by
  rw [Real.le_logb_iff_rpow_le one_lt_two (by norm_num)]
  rw [show (5 : ℝ) = ((5 : ℕ) : ℝ) by norm_num, Real.rpow_natCast]
  norm_num

theorem logb_two_36_upper : Real.logb 2 36 ≤ 6 := by
  rw [Real.logb_le_iff_le_rpow one_lt_two (by norm_num)]
  rw [show (6 : ℝ) = ((6 : ℕ) : ℝ) by norm_num, Real.rpow_natCast]
  norm_num

/-! Entropy values and sub-score buckets for the concrete passwords used
below: "ab 1" (4 characters, lowercase + digit + space), "xk 1985qz"
(9 characters, date pattern) and "xk4 pq9z" (8 characters, no issues). -/

theorem entropy_ab1 : calculate_entropy "ab 1" = 4 * Real.logb 2 36 := by
  have h1 : calculate_charset_size "ab 1" = 36 := by decide
  have h2 : check_patterns "ab 1" = [] := by decide
  have h3 : weak_passwords.contains (lowerStr "ab 1") = false := by decide
  have h4 : ("ab 1" : String).length = 4 := rfl
  simp only [calculate_entropy]
  rw [h1, h4, if_neg (by norm_num : ¬ (36 : ℕ) ≤ 1), if_neg (by decide),
    if_neg (show ¬ (check_patterns "ab 1" ≠ []) from fun hc => hc h2)]
  norm_num

theorem entropy_sub_ab1 : entropy_sub_score (calculate_entropy "ab 1") = 5 := by
  have hu := logb_two_36_upper
  have hl := logb_two_36_lower
  rw [entropy_ab1]
  simp only [entropy_sub_score]
  rw [if_neg (by nlinarith), if_neg (by nlinarith), if_neg (by nlinarith),
    if_neg (by nlinarith)]

theorem entropy_p1 : calculate_entropy "xk 1985qz" = 9 * Real.logb 2 36 * 0.7 := by
  have h1 : calculate_charset_size "xk 1985qz" = 36 := by decide
  have h2 : check_patterns "xk 1985qz" ≠ [] := by decide
  have h3 : weak_passwords.contains (lowerStr "xk 1985qz") = false := by decide
  have h4 : ("xk 1985qz" : String).length = 9 := rfl
  simp only [calculate_entropy]
  rw [h1, h4, if_neg (by norm_num : ¬ (36 : ℕ) ≤ 1), if_neg (by decide), if_pos h2]
  norm_num

theorem entropy_sub_p1 : entropy_sub_score (calculate_entropy "xk 1985qz") = 10 := by
  have hu := logb_two_36_upper
  have hl := logb_two_36_lower
  rw [entropy_p1]
  simp only [entropy_sub_score]
  rw [if_neg (by nlinarith), if_neg (by nlinarith), if_neg (by nlinarith),
    if_pos (by nlinarith)]

theorem entropy_p2 : calculate_entropy "xk4 pq9z" = 8 * Real.logb 2 36 := by
  have h1 : calculate_charset_size "xk4 pq9z" = 36 := by decide
  have h2 : check_patterns "xk4 pq9z" = [] := by decide
  have h3 : weak_passwords.contains (lowerStr "xk4 pq9z") = false := by decide
  have h4 : ("xk4 pq9z" : String).length = 8 := rfl
  simp only [calculate_entropy]
  rw [h1, h4, if_neg (by norm_num : ¬ (36 : ℕ) ≤ 1), if_neg (by decide),
    if_neg (show ¬ (check_patterns "xk4 pq9z" ≠ []) from fun hc => hc h2)]
  norm_num

theorem entropy_sub_p2 : entropy_sub_score (calculate_entropy "xk4 pq9z") = 15 := by
  have hu := logb_two_36_upper
  have hl := logb_two_36_lower
  rw [entropy_p2]
  simp only [entropy_sub_score]
  rw [if_neg (by nlinarith), if_neg (by nlinarith), if_pos (by nlinarith)]

theorem strength_p1 : (analyze_password "xk 1985qz").strength_score = 62 := by
  rw [analyze_strength, entropy_sub_p1]
  rw [show length_sub_score ("xk 1985qz" : String).length = 15 from by decide]
  rw [show diversity_sub_score (analyze_character_types "xk 1985qz") = 20 from by decide]
  rw [show penalty_sub_score (weak_passwords.contains (lowerStr "xk 1985qz"))
      (check_patterns "xk 1985qz") = 17 from by decide]
  decide

theorem strength_p2 : (analyze_password "xk4 pq9z").strength_score = 70 := by
  rw [analyze_strength, entropy_sub_p2]
  rw [show length_sub_score ("xk4 pq9z" : String).length = 15 from by decide]
  rw [show diversity_sub_score (analyze_character_types "xk4 pq9z") = 20 from by decide]
  rw [show penalty_sub_score (weak_passwords.contains (lowerStr "xk4 pq9z"))
      (check_patterns "xk4 pq9z") = 20 from by decide]
  decide

/-! Crack-time strings for the medium (dedicated-hacker) profile of the
two concrete passwords: exact rational evaluation of `_format_time`. -/

theorem format_time_p1 : format_time (crack_seconds (36 ^ 9) 1000000) = "1.6 years" := by
  have h : crack_seconds (36 ^ 9) 1000000 = (50779978334208 : ℚ) / 1000000 := by
    unfold crack_seconds avg_attempts
    norm_num
  rw [h]
  simp only [format_time]
  rw [if_neg (by norm_num), if_neg (by norm_num), if_neg (by norm_num),
    if_neg (by norm_num), if_neg (by norm_num), if_pos (by norm_num)]
  have hq : (50779978334208 : ℚ) / 1000000 / 31536000 * 10 = 50779978334208 / 3153600000000 := by
    norm_num
  have hf : ⌊(50779978334208 : ℚ) / 3153600000000⌋ = 16 := by
    rw [Int.floor_eq_iff]
    norm_num
  unfold fmt1 round_half_even
  rw [hq, hf]
  norm_num
  rfl

theorem format_time_p2 : format_time (crack_seconds (36 ^ 8) 1000000) = "2.3 weeks" := by
  have h : crack_seconds (36 ^ 8) 1000000 = (1410554953728 : ℚ) / 1000000 := by
    unfold crack_seconds avg_attempts
    norm_num
  rw [h]
  simp only [format_time]
  rw [if_neg (by norm_num), if_neg (by norm_num), if_neg (by norm_num),
    if_neg (by norm_num), if_pos (by norm_num), if_neg (by norm_num),
    if_pos (by norm_num)]
  have hq : (1410554953728 : ℚ) / 1000000 / 86400 / 7 * 10 = 1410554953728 / 60480000000 := by
    norm_num
  have hf : ⌊(1410554953728 : ℚ) / 60480000000⌋ = 23 := by
    rw [Int.floor_eq_iff]
    norm_num
  unfold fmt1 round_half_even
  rw [hq, hf]
  norm_num
  rfl

theorem lookup_medium (n : ℕ) :
    (calculate_crack_times n).lookup "medium" = some (format_time (crack_seconds n 1000000)) := by
  simp [calculate_crack_times, attack_speeds, List.lookup]

theorem warnings_p1 : get_warnings "xk 1985qz" (analyze_password "xk 1985qz") = [] := by
  simp only [get_warnings]
  rw [analyze_length, analyze_is_common, analyze_types, analyze_issues, analyze_crack,
    strength_p1]
  rw [show calculate_charset_size "xk 1985qz" = 36 from by decide,
    show ("xk 1985qz" : String).length = 9 from rfl]
  rw [lookup_medium, format_time_p1]
  decide

theorem warnings_p2 : get_warnings "xk4 pq9z" (analyze_password "xk4 pq9z") = [] := by
  simp only [get_warnings]
  rw [analyze_length, analyze_is_common, analyze_types, analyze_issues, analyze_crack,
    strength_p2]
  rw [show calculate_charset_size "xk4 pq9z" = 36 from by decide,
    show ("xk4 pq9z" : String).length = 8 from rfl]
  rw [lookup_medium, format_time_p2]
  decide

/-! Structure of the pattern-issue list: it is always a sublist of the
master tag list, in which every tag occurs once except
"sequential_characters", contributed by both sequential rules. -/

theorem check_patterns_sublist (p : String) :
    List.Sublist (check_patterns p)
      ["repeated_characters", "sequential_characters", "sequential_characters",
       "keyboard_pattern", "common_words", "date_pattern", "simple_substitution"] := by
  simp only [check_patterns]
  split_ifs <;> decide

theorem count_master_le_one (k : String) (hk : k ≠ "sequential_characters") :
    List.count k
      ["repeated_characters", "sequential_characters", "sequential_characters",
       "keyboard_pattern", "common_words", "date_pattern", "simple_substitution"] ≤ 1 := by
  by_cases h1 : ("repeated_characters" : String) = k
  · subst h1; decide
  by_cases h2 : ("keyboard_pattern" : String) = k
  · subst h2; decide
  by_cases h3 : ("common_words" : String) = k
  · subst h3; decide
  by_cases h4 : ("date_pattern" : String) = k
  · subst h4; decide
  by_cases h5 : ("simple_substitution" : String) = k
  · subst h5; decide
  have h6 : ¬ (("sequential_characters" : String) = k) := fun h => hk h.symm
  simp [List.count_cons, h1, h2, h3, h4, h5, h6]

/-- C1.  The claim says `_check_patterns` never repeats a tag.  It fails:
on "abc123" both the sequential-digits rule and the sequential-letters
rule fire and each appends "sequential_characters", so the record's
`pattern_issues` holds that tag twice. -/
theorem c1_counterexample :
    (analyze_password "abc123").pattern_issues =
      ["sequential_characters", "sequential_characters"] ∧
    ¬ (analyze_password "abc123").pattern_issues.Nodup := by
  rw [analyze_issues]
  exact ⟨by decide, by decide⟩

/-- C1 (amended).  Every tag other than "sequential_characters" appears at
most once in the pattern-issue list; "sequential_characters" appears at
most twice, because exactly two rules map to it. -/
theorem c1_amended (p k : String) :
    (k ≠ "sequential_characters" → (check_patterns p).count k ≤ 1) ∧
    (check_patterns p).count "sequential_characters" ≤ 2 := by
  constructor
  · intro hk
    exact le_trans ((check_patterns_sublist p).count_le k) (count_master_le_one k hk)
  · have hm : List.count "sequential_characters"
        ["repeated_characters", "sequential_characters", "sequential_characters",
         "keyboard_pattern", "common_words", "date_pattern", "simple_substitution"] ≤ 2 := by
      decide
    exact le_trans ((check_patterns_sublist p).count_le "sequential_characters") hm

/-- C1 (amended), witness at the password "aaa111" and the tag
"date_pattern". -/
theorem c1_amended_witness :
    ("date_pattern" : String) ≠ "sequential_characters" ∧
    (check_patterns "aaa111").count "date_pattern" ≤ 1 ∧
    (check_patterns "aaa111").count "sequential_characters" ≤ 2 :=
  ⟨by decide, (c1_amended "aaa111" "date_pattern").1 (by decide),
    (c1_amended "aaa111" "date_pattern").2⟩

/-- C2.  The claim says the diversity portion of the strength score counts
only the four ASCII character-type flags.  It fails on "ab 1": the code
also counts the space flag, reaching the three-type bucket (20 points,
total 50), while the spec formula yields the two-type bucket (10 points,
total 40). -/
theorem c2_counterexample :
    (analyze_password "ab 1").strength_score ≠
      max 0 (min 100 (length_sub_score (analyze_password "ab 1").length +
        spec_diversity_sub_score (analyze_password "ab 1").character_types +
        entropy_sub_score (analyze_password "ab 1").entropy +
        penalty_sub_score (analyze_password "ab 1").is_common_password
          (analyze_password "ab 1").pattern_issues)) := by
  rw [analyze_strength, analyze_length, analyze_types, analyze_entropy, analyze_is_common,
    analyze_issues, entropy_sub_ab1]
  decide

/-- C2 (amended).  The diversity sub-score counts all five character-type
flags, the space flag included: 25 points for at least four flags, 20 for
three, 10 for two, otherwise 5. -/
theorem c2_amended (p : String) :
    (analyze_password p).strength_score =
      max 0 (min 100 (length_sub_score (analyze_password p).length +
        amended_diversity_sub_score (analyze_password p).character_types +
        entropy_sub_score (analyze_password p).entropy +
        penalty_sub_score (analyze_password p).is_common_password
          (analyze_password p).pattern_issues)) := rfl

/-- C4.  The claim says the seconds value handed to the formatter is
exactly `total_combinations / 2 / rate` for every count.  It fails for odd
counts: the code floors with integer division first, so for 3 combinations
at the slow rate it passes 1/1000 rather than 3/2000. -/
theorem c4_counterexample : crack_seconds 3 1000 ≠ (3 : ℚ) / 2 / 1000 := by
  unfold crack_seconds avg_attempts
  norm_num

/-- C4 (amended).  For every attack profile the seconds value equals
`(total_combinations - total_combinations mod 2) / 2 / rate`: the count is
first halved with floor division, which agrees with exact halving only for
even counts. -/
theorem c4_amended (total_combinations : ℕ) (nm : String) (rate : ℕ)
    (hmem : (nm, rate) ∈ attack_speeds) :
    crack_seconds total_combinations rate =
      ((total_combinations : ℚ) - ((total_combinations % 2 : ℕ) : ℚ)) / 2 / (rate : ℚ) := by
  unfold crack_seconds avg_attempts
  have h2 : (total_combinations / 2 : ℕ) * 2 + total_combinations % 2 = total_combinations := by
    omega
  have hq : ((total_combinations / 2 : ℕ) : ℚ) =
      ((total_combinations : ℚ) - ((total_combinations % 2 : ℕ) : ℚ)) / 2 := by
    have hc := congrArg (fun n : ℕ => (n : ℚ)) h2
    push_cast at hc
    linarith
  rw [hq]

/-- C4 (amended), witness at 7 combinations and the slow profile. -/
theorem c4_amended_witness :
    (("slow", 1000) ∈ attack_speeds) ∧
    crack_seconds 7 1000 = ((7 : ℚ) - ((7 % 2 : ℕ) : ℚ)) / 2 / (1000 : ℚ) :=
  ⟨by decide, by simpa using c4_amended 7 "slow" 1000 (by decide)⟩

/-- C5.  The claim says `analyze_common_mistakes` is total on every string
including the empty one.  It fails on the empty string: the diversity-ratio
check divides `len(set(password))` by `len(password)` and raises
`ZeroDivisionError`. -/
theorem c5_counterexample : analyze_common_mistakes "" = none := rfl

/-- C5 (amended).  `analyze_common_mistakes` returns a list of strings for
every non-empty password. -/
theorem c5_amended (p : String) (h : p ≠ "") :
    (analyze_common_mistakes p).isSome = true := by
  have hlen : p.length ≠ 0 := by
    intro h0
    apply h
    have hdata : p.data = [] := List.length_eq_zero.mp h0
    cases p
    subst hdata
    rfl
  simp only [analyze_common_mistakes]
  rw [if_neg hlen]
  rfl

/-- C5 (amended), witness at "hello2024". -/
theorem c5_amended_witness :
    ("hello2024" : String) ≠ "" ∧ (analyze_common_mistakes "hello2024").isSome = true :=
  ⟨by decide, c5_amended "hello2024" (by decide)⟩

/-- C7.  The charset size is the sum of the alphabet sizes of the present
classes, falling back to the distinct-character count when the sum is
zero, and it is at least 1 for every non-empty password. -/
theorem c7_charset (p : String) :
    (calculate_charset_size p =
      (let s := (if hasLower p then 26 else 0) + (if hasUpper p then 26 else 0) +
        (if hasDigit p then 10 else 0) + (if hasSymbol p then 32 else 0);
       if s = 0 then distinctCount p else s)) ∧
    (p ≠ "" → 1 ≤ calculate_charset_size p) := by
  constructor
  · show calculate_charset_size p =
      (if ((if hasLower p then 26 else 0) + (if hasUpper p then 26 else 0) +
        (if hasDigit p then 10 else 0) + (if hasSymbol p then 32 else 0)) = 0
       then distinctCount p
       else (if hasLower p then 26 else 0) + (if hasUpper p then 26 else 0) +
        (if hasDigit p then 10 else 0) + (if hasSymbol p then 32 else 0))
    simp only [calculate_charset_size]
    split_ifs <;> first | exact False.elim (by assumption) | omega
  · intro hne
    have hd : p.data ≠ [] := by
      intro h0
      apply hne
      cases p
      subst h0
      rfl
    have hdist : 1 ≤ distinctCount p := by
      have hnil : p.data.dedup ≠ [] := fun hnil => hd ((List.dedup_eq_nil _).mp hnil)
      exact List.length_pos.mpr hnil
    simp only [calculate_charset_size]
    split_ifs <;> omega

/-- C7, witness at the password "a!". -/
theorem c7_charset_witness : 1 ≤ calculate_charset_size "a!" :=
  (c7_charset "a!").2 (by decide)

/-- C8.  On the empty string the analysis record has charset size 0,
entropy 0, and total combinations 1 (the zero-to-the-zero case evaluates
to one). -/
theorem c8_empty_analysis :
    (analyze_password "").charset_size = 0 ∧ (analyze_password "").entropy = 0 ∧
    (analyze_password "").total_combinations = 1 := by
  refine ⟨?_, ?_, ?_⟩
  · rw [analyze_charset]; decide
  · rw [analyze_entropy]
    simp only [calculate_entropy]
    rw [if_pos (by decide : calculate_charset_size "" ≤ 1)]
  · rw [analyze_total]
    norm_num [show calculate_charset_size "" = 0 from by decide,
      show ("" : String).length = 0 from rfl]

/-- C9.  Every password's strength score lies between 0 and 100. -/
theorem c9_strength_score_bounds (p : String) :
    0 ≤ (analyze_password p).strength_score ∧ (analyze_password p).strength_score ≤ 100 := by
  rw [analyze_strength]
  exact ⟨le_max_left _ _, max_le (by norm_num) (min_le_left _ _)⟩

/-- C3 (amended).  `get_warnings` returns the empty list only when: the
length is at least 8, the password is not common, the strength score is at
least 50, at least three of the five character-type flags (the space flag
included) are set, none of the four warned pattern kinds was detected, and
the medium-tier crack-time string mentions neither "second" nor "minute". -/
theorem c3_amended (p : String)
    (h : get_warnings p (analyze_password p) = []) :
    8 ≤ p.length ∧
    (analyze_password p).is_common_password = false ∧
    50 ≤ (analyze_password p).strength_score ∧
    3 ≤ type_count (analyze_password p).character_types ∧
    (analyze_password p).pattern_issues.contains "repeated_characters" = false ∧
    (analyze_password p).pattern_issues.contains "sequential_characters" = false ∧
    (analyze_password p).pattern_issues.contains "keyboard_pattern" = false ∧
    (analyze_password p).pattern_issues.contains "simple_substitution" = false ∧
    (∀ mt, (analyze_password p).crack_times.lookup "medium" = some mt →
      strContains (lowerStr mt) "second" = false ∧
      strContains (lowerStr mt) "minute" = false) := by
  simp only [get_warnings, List.append_eq_nil] at h
  obtain ⟨⟨⟨⟨⟨h1, h2⟩, h3⟩, h4⟩, h5⟩, h6⟩ := h
  have gcont : ∀ (t msg : String),
      (if (analyze_password p).pattern_issues.contains t = true then [msg] else []) = [] →
      (analyze_password p).pattern_issues.contains t = false := by
    intro t msg hx
    cases hb : (analyze_password p).pattern_issues.contains t
    · rfl
    · rw [hb] at hx
      simp at hx
  have g1 : 8 ≤ p.length := by
    by_cases hc : (analyze_password p).length < 8
    · rw [if_pos hc] at h1
      exact absurd h1 (by simp)
    · rw [analyze_length] at hc
      omega
  have g2 : (analyze_password p).is_common_password = false := by
    cases hb : (analyze_password p).is_common_password
    · rfl
    · rw [hb] at h2
      simp at h2
  have g3 : 50 ≤ (analyze_password p).strength_score := by
    by_cases hc1 : (analyze_password p).strength_score < 25
    · rw [if_pos hc1] at h3
      exact absurd h3 (by simp)
    · rw [if_neg hc1] at h3
      by_cases hc2 : (analyze_password p).strength_score < 50
      · rw [if_pos hc2] at h3
        exact absurd h3 (by simp)
      · omega
  have g4 : 3 ≤ type_count (analyze_password p).character_types := by
    by_cases hc1 : type_count (analyze_password p).character_types < 2
    · rw [if_pos hc1] at h4
      exact absurd h4 (by simp)
    · rw [if_neg hc1] at h4
      by_cases hc2 : type_count (analyze_password p).character_types < 3
      · rw [if_pos hc2] at h4
        exact absurd h4 (by simp)
      · omega
  have g6 : ∀ mt, (analyze_password p).crack_times.lookup "medium" = some mt →
      strContains (lowerStr mt) "second" = false ∧
      strContains (lowerStr mt) "minute" = false := by
    intro mt hmt
    rw [hmt] at h6
    have hif : (if (strContains (lowerStr mt) "second" ||
          strContains (lowerStr mt) "minute") = true
        then ["A dedicated attacker could crack this in " ++ lowerStr mt]
        else []) = [] := h6
    cases hb1 : strContains (lowerStr mt) "second" <;>
      cases hb2 : strContains (lowerStr mt) "minute"
    · exact ⟨rfl, rfl⟩
    · rw [hb1, hb2] at hif
      simp at hif
    · rw [hb1, hb2] at hif
      simp at hif
    · rw [hb1, hb2] at hif
      simp at hif
  by_cases hne : (analyze_password p).pattern_issues ≠ []
  · rw [if_pos hne] at h5
    simp only [List.append_eq_nil] at h5
    obtain ⟨⟨⟨hA, hB⟩, hC⟩, hD⟩ := h5
    exact ⟨g1, g2, g3, g4, gcont _ _ hA, gcont _ _ hB, gcont _ _ hC, gcont _ _ hD, g6⟩
  · have he : (analyze_password p).pattern_issues = [] := not_not.mp hne
    rw [he]
    exact ⟨g1, g2, g3, g4, rfl, rfl, rfl, rfl, g6⟩

/-- C3.  The claim lists "all four character types present" and "no
detected pattern issues" among the necessary conditions for an empty
warning list.  Both fail on "xk 1985qz": its warnings are empty although
it has no uppercase letter (three of the five flags, the space counted,
suffice for the code) and it carries a `date_pattern` issue, one of the
two pattern kinds `get_warnings` never reports. -/
theorem c3_counterexample :
    get_warnings "xk 1985qz" (analyze_password "xk 1985qz") = [] ∧
    (analyze_password "xk 1985qz").character_types.has_uppercase = false ∧
    (analyze_password "xk 1985qz").pattern_issues ≠ [] := by
  refine ⟨warnings_p1, ?_, ?_⟩
  · rw [analyze_types]
    decide
  · rw [analyze_issues]
    decide

/-- C3 (amended), witness at "xk4 pq9z", whose warning list is empty. -/
theorem c3_amended_witness :
    get_warnings "xk4 pq9z" (analyze_password "xk4 pq9z") = [] ∧
    (8 ≤ ("xk4 pq9z" : String).length ∧
     (analyze_password "xk4 pq9z").is_common_password = false ∧
     50 ≤ (analyze_password "xk4 pq9z").strength_score ∧
     3 ≤ type_count (analyze_password "xk4 pq9z").character_types ∧
     (analyze_password "xk4 pq9z").pattern_issues.contains "repeated_characters" = false ∧
     (analyze_password "xk4 pq9z").pattern_issues.contains "sequential_characters" = false ∧
     (analyze_password "xk4 pq9z").pattern_issues.contains "keyboard_pattern" = false ∧
     (analyze_password "xk4 pq9z").pattern_issues.contains "simple_substitution" = false ∧
     (∀ mt, (analyze_password "xk4 pq9z").crack_times.lookup "medium" = some mt →
       strContains (lowerStr mt) "second" = false ∧
       strContains (lowerStr mt) "minute" = false)) :=
  ⟨warnings_p2, c3_amended "xk4 pq9z" warnings_p2⟩

/-- C6.  The entropy is `length * log2(charsetSize)` scaled by 0.7 when a
pattern issue is present and by a further 0.3 when the lowercased password
is in the weak-password set (0.21 when both), and it is 0 whenever the
charset size is at most 1. -/
theorem c6_entropy_penalties (p : String) :
    (calculate_charset_size p ≤ 1 → calculate_entropy p = 0) ∧
    (1 < calculate_charset_size p → check_patterns p = [] →
      weak_passwords.contains (lowerStr p) = false →
      calculate_entropy p =
        (p.length : ℝ) * Real.logb 2 (calculate_charset_size p : ℝ)) ∧
    (1 < calculate_charset_size p → check_patterns p ≠ [] →
      weak_passwords.contains (lowerStr p) = false →
      calculate_entropy p =
        0.7 * ((p.length : ℝ) * Real.logb 2 (calculate_charset_size p : ℝ))) ∧
    (1 < calculate_charset_size p → check_patterns p = [] →
      weak_passwords.contains (lowerStr p) = true →
      calculate_entropy p =
        0.3 * ((p.length : ℝ) * Real.logb 2 (calculate_charset_size p : ℝ))) ∧
    (1 < calculate_charset_size p → check_patterns p ≠ [] →
      weak_passwords.contains (lowerStr p) = true →
      calculate_entropy p =
        0.21 * ((p.length : ℝ) * Real.logb 2 (calculate_charset_size p : ℝ))) := by
  refine ⟨?_, ?_, ?_, ?_, ?_⟩
  · intro hle
    simp only [calculate_entropy]
    rw [if_pos hle]
  · intro hgt hpat hcom
    simp only [calculate_entropy]
    rw [if_neg (by omega), if_neg (by rw [hcom]; decide),
      if_neg (show ¬ (check_patterns p ≠ []) from fun hc => hc hpat)]
    ring
  · intro hgt hpat hcom
    simp only [calculate_entropy]
    rw [if_neg (by omega), if_neg (by rw [hcom]; decide), if_pos hpat]
    ring
  · intro hgt hpat hcom
    simp only [calculate_entropy]
    rw [if_neg (by omega), if_pos hcom,
      if_neg (show ¬ (check_patterns p ≠ []) from fun hc => hc hpat)]
    ring
  · intro hgt hpat hcom
    simp only [calculate_entropy]
    rw [if_neg (by omega), if_pos hcom, if_pos hpat]
    ring_nf

/-- C6, witness at the password "password" (common-listed, with
`common_words` and `simple_substitution` pattern issues). -/
theorem c6_entropy_penalties_witness :
    (1 < calculate_charset_size "password" ∧ check_patterns "password" ≠ [] ∧
      weak_passwords.contains (lowerStr "password") = true) ∧
    calculate_entropy "password" =
      0.21 * ((("password" : String).length : ℝ) *
        Real.logb 2 (calculate_charset_size "password" : ℝ)) :=
  ⟨⟨by decide, by decide, by decide⟩,
    (c6_entropy_penalties "password").2.2.2.2 (by decide) (by decide) (by decide)⟩

/-- C10.  `get_warnings` and `get_suggestions` read only the analysis
record: the password argument is never consulted, so any two passwords
give identical results on the same record. -/
theorem c10_advisor_ignores_password (p1 p2 : String) (a : AnalysisRecord) :
    get_warnings p1 a = get_warnings p2 a ∧ get_suggestions p1 a = get_suggestions p2 a :=
  ⟨rfl, rfl⟩

end CrackTime
